import Mathlib

/-!
# passport-linkedin-token-oauth2: the token strategy

A shallow embedding of `lib/passport-linkedin-token-oauth2/strategy.js` and
`lib/strategy.js`.  The prototype methods `authenticate`, `userProfile` and
`_loadUserProfile` have the same text in both files (they differ in layout and
comments only), so each is embedded once; the two files differ in how the
constructor computes `profileUrl`, which is embedded per variant.

JavaScript values are a small inductive type, a call with its argument list is
an event of a trace, and a JavaScript computation is a trace together with
either a returned value or a thrown exception.  Collaborators that live outside
the repository (the OAuth2 client, the verify callback, the skip predicate, the
framework's `success` / `fail` / `error`, `JSON.parse`) are fields of the
strategy record, so every theorem quantifies over their behaviour.
-/

namespace LinkedinToken

/-! ## JavaScript values -/

/-- JavaScript values as they occur in requests, JSON documents and callback
arguments.  `num` covers the integer-valued numbers; every other number that a
request or a JSON document can hold is truthy, as the non-zero integers are. -/
inductive JSVal where
  | undefined : JSVal
  | null : JSVal
  | bool (b : Bool) : JSVal
  | num (n : Int) : JSVal
  | str (s : String) : JSVal
  | arr (items : List JSVal) : JSVal
  | obj (fields : List (String × JSVal)) : JSVal
  deriving Inhabited

namespace JSVal

/-- ToBoolean: `undefined`, `null`, `false`, `0` and the empty string are falsy. -/
def truthy : JSVal → Bool
  | undefined => false
  | null => false
  | bool b => b
  | num n => n != 0
  | str s => s != ""
  | arr _ => true
  | obj _ => true

/-- Whether property access on the value raises a TypeError. -/
def nullish : JSVal → Bool
  | undefined => true
  | null => true
  | _ => false

/-- First value stored under `k` in an association list, `undefined` when there is none. -/
def lookup (k : String) : List (String × JSVal) → JSVal
  | [] => undefined
  | (key, v) :: rest => if key = k then v else lookup k rest

/-- The value of `o.k` for the property names the strategy reads, none of which
is a member of a built-in prototype: own property of an object, else `undefined`. -/
def field (o : JSVal) (k : String) : JSVal :=
  match o with
  | obj fields => lookup k fields
  | _ => undefined

end JSVal

/-- The i-th actual argument of a call, `undefined` when fewer were passed. -/
def arg (args : List JSVal) (i : Nat) : JSVal := args.getD i JSVal.undefined

/-- The TypeError raised by reading a property of `undefined` or `null`. -/
def typeError : JSVal := JSVal.obj [("name", JSVal.str "TypeError")]

/-- The SyntaxError raised by `JSON.parse`, carrying the engine's message. -/
def syntaxError (message : String) : JSVal :=
  JSVal.obj [("name", JSVal.str "SyntaxError"), ("message", JSVal.str message)]

/-- The error object built by `new InternalOAuthError(message, err)` of passport-oauth. -/
def InternalOAuthError (message : String) (err : JSVal) : JSVal :=
  JSVal.obj [("name", JSVal.str "InternalOAuthError"), ("message", JSVal.str message),
    ("oauthError", err)]

/-! ## Calls and computations -/

/-- Calls that leave the strategy, each with its actual argument list.  A function
passed as last argument (a continuation) is not listed among the arguments.
`done` records an invocation of the continuation handed to `userProfile` or
`_loadUserProfile` when a theorem supplies a recording continuation. -/
inductive Call where
  | success (args : List JSVal) : Call
  | fail (args : List JSVal) : Call
  | error (args : List JSVal) : Call
  | setAccessTokenName (name : String) : Call
  | get (args : List JSVal) : Call
  | verify (args : List JSVal) : Call
  | skipUserProfile (args : List JSVal) : Call
  | done (args : List JSVal) : Call

/-- A JavaScript computation: the calls made, in order, and how it ended. -/
structure Eff (α : Type) where
  trace : List Call
  result : Except JSVal α

namespace Eff

/-- Return a value without making a call. -/
def ret {α : Type} (a : α) : Eff α := ⟨[], Except.ok a⟩

/-- Raise an exception. -/
def raise {α : Type} (e : JSVal) : Eff α := ⟨[], Except.error e⟩

/-- Sequencing: an exception in the first part skips the second. -/
def andThen {α β : Type} (m : Eff α) (f : α → Eff β) : Eff β :=
  match m.result with
  | Except.error e => ⟨m.trace, Except.error e⟩
  | Except.ok a => ⟨m.trace ++ (f a).trace, (f a).result⟩

/-- The statement `try { m } catch (e) { h e }`. -/
def tryCatch {α : Type} (m : Eff α) (h : JSVal → Eff α) : Eff α :=
  match m.result with
  | Except.ok a => ⟨m.trace, Except.ok a⟩
  | Except.error e => ⟨m.trace ++ (h e).trace, (h e).result⟩

/-- Record one call. -/
def emit (c : Call) : Eff Unit := ⟨[c], Except.ok ()⟩

/-- A call into code that either returns or raises. -/
def ofExcept {α : Type} (r : Except JSVal α) : Eff α := ⟨[], r⟩

instance : Monad Eff where
  pure := ret
  bind := andThen

end Eff

open Eff

/-- What an external function does when it is called: it invokes the continuation
it was given with each of `calls` in turn, then returns or raises `outcome`.
The continuation runs before the function returns.  A collaborator that defers
it makes the same calls; the one difference is that an exception raised under a
deferred continuation does not reach a `try` block around the collaborator's call. -/
structure Script where
  calls : List (List JSVal)
  outcome : Except JSVal JSVal

/-- Invoke continuation `k` once per argument list; an exception raised by `k`
propagates through the caller and ends the sequence. -/
def runCalls (k : List JSVal → Eff Unit) : List (List JSVal) → Eff Unit
  | [] => pure ()
  | a :: rest => do
    k a
    runCalls k rest

/-- Run an external function that was handed continuation `k`. -/
def runScript (s : Script) (k : List JSVal → Eff Unit) : Eff JSVal := do
  runCalls k s.calls
  Eff.ofExcept s.outcome

/-- Reading `o.k`: a TypeError when `o` is `undefined` or `null`. -/
def getProp (o : JSVal) (k : String) : Eff JSVal :=
  if o.nullish then raise typeError else pure (o.field k)

/-- The expression `a || b`, where `b` is evaluated only when `a` is falsy. -/
def orElse (a : JSVal) (b : Eff JSVal) : Eff JSVal :=
  if a.truthy then pure a else b

/-! ## The strategy object and the request -/

/-- The value of `this._skipUserProfile`: a function with its declared number
of parameters (`length`) and its behaviour on an argument list, or any other value. -/
inductive SkipUserProfile where
  | fn (length : Nat) (run : List JSVal → Script) : SkipUserProfile
  | value (v : JSVal) : SkipUserProfile

/-- The strategy instance `this` / `self` together with the collaborators it
reaches: the verify callback, the OAuth2 client, the framework-provided
`success` / `fail` / `error` (each may raise), and the host's `JSON.parse`
(which returns the parsed value or raises a SyntaxError with a message). -/
structure LinkedinTokenStrategy where
  _passReqToCallback : JSVal
  _skipUserProfile : SkipUserProfile
  profileUrl : String
  _verify : List JSVal → Script
  oauth2Get : List JSVal → Script
  success : List JSVal → Except JSVal Unit
  fail : List JSVal → Except JSVal Unit
  error : List JSVal → Except JSVal Unit
  jsonParse : JSVal → Except String JSVal

/-- The request: each container is `undefined` when absent. -/
structure Request where
  body : JSVal
  query : JSVal
  headers : JSVal

/-- The request as the argument handed to the verify callback. -/
def Request.toJS (req : Request) : JSVal :=
  JSVal.obj [("body", req.body), ("query", req.query), ("headers", req.headers)]

namespace LinkedinTokenStrategy

/-- The call `self.success(...)`. -/
def callSuccess (self : LinkedinTokenStrategy) (args : List JSVal) : Eff Unit := do
  emit (Call.success args)
  Eff.ofExcept (self.success args)

/-- The call `self.fail(...)`. -/
def callFail (self : LinkedinTokenStrategy) (args : List JSVal) : Eff Unit := do
  emit (Call.fail args)
  Eff.ofExcept (self.fail args)

/-- The call `self.error(...)`. -/
def callError (self : LinkedinTokenStrategy) (args : List JSVal) : Eff Unit := do
  emit (Call.error args)
  Eff.ofExcept (self.error args)

/-- The call `self._verify(..., verified)` with continuation `k`. -/
def callVerify (self : LinkedinTokenStrategy) (args : List JSVal)
    (k : List JSVal → Eff Unit) : Eff Unit := do
  emit (Call.verify args)
  let _ ← runScript (self._verify args) k
  pure ()

/-- The inner function `verified(err, user, info)` of `authenticate`. -/
def verified (self : LinkedinTokenStrategy) (args : List JSVal) : Eff Unit :=
  let err := arg args 0
  let user := arg args 1
  let info := arg args 2
  if err.truthy then self.callError [err]
  else if !user.truthy then self.callFail [info]
  else self.callSuccess [user, info]

/-- The callback `function(err, profile)` that `authenticate` hands to
`_loadUserProfile`. -/
def authenticateLoaded (self : LinkedinTokenStrategy) (req : Request)
    (accessToken refreshToken : JSVal) (args : List JSVal) : Eff Unit :=
  let err := arg args 0
  let profile := arg args 1
  if err.truthy then self.callFail [err]
  else if self._passReqToCallback.truthy then
    self.callVerify [req.toJS, accessToken, refreshToken, profile] self.verified
  else
    self.callVerify [accessToken, refreshToken, profile] self.verified

/-- The body of the `try` block of `userProfile`: parse, build the profile, call `done`. -/
def userProfileTry (self : LinkedinTokenStrategy) (body : JSVal)
    (done : List JSVal → Eff Unit) : Eff Unit := do
  let json ← Eff.ofExcept ((self.jsonParse body).mapError syntaxError)
  let id ← getProp json "id"
  let formattedName ← getProp json "formattedName"
  let lastName ← getProp json "lastName"
  let firstName ← getProp json "firstName"
  let emailAddress ← getProp json "emailAddress"
  let pictureUrl ← getProp json "pictureUrl"
  let photos := if pictureUrl.truthy then [pictureUrl] else []
  done [JSVal.null, JSVal.obj [
    ("provider", JSVal.str "linkedin"),
    ("id", id),
    ("displayName", formattedName),
    ("name", JSVal.obj [("familyName", lastName), ("givenName", firstName)]),
    ("emails", JSVal.arr [JSVal.obj [("value", emailAddress)]]),
    ("photos", JSVal.arr photos),
    ("_raw", body),
    ("_json", json)]]

/-- The callback `function (err, body, res)` that `userProfile` hands to `get`. -/
def userProfileFetched (self : LinkedinTokenStrategy) (done : List JSVal → Eff Unit)
    (args : List JSVal) : Eff Unit :=
  let err := arg args 0
  let body := arg args 1
  if err.truthy then done [InternalOAuthError "failed to fetch user profile" err]
  else Eff.tryCatch (self.userProfileTry body done) (fun e => done [e])

/-- The method `userProfile(accessToken, done)`. -/
def userProfile (self : LinkedinTokenStrategy) (accessToken : JSVal)
    (done : List JSVal → Eff Unit) : Eff Unit := do
  emit (Call.setAccessTokenName "oauth2_access_token")
  emit (Call.get [JSVal.str self.profileUrl, accessToken])
  let _ ← runScript (self.oauth2Get [JSVal.str self.profileUrl, accessToken])
    (self.userProfileFetched done)
  pure ()

/-- The method `_loadUserProfile(accessToken, done)`. -/
def _loadUserProfile (self : LinkedinTokenStrategy) (accessToken : JSVal)
    (done : List JSVal → Eff Unit) : Eff Unit :=
  let loadIt : Eff Unit := self.userProfile accessToken done
  let skipIt : Eff Unit := done [JSVal.null]
  match self._skipUserProfile with
  | SkipUserProfile.fn length run =>
    if length > 1 then do
      emit (Call.skipUserProfile [accessToken])
      let _ ← runScript (run [accessToken]) (fun args =>
        let err := arg args 0
        let skip := arg args 1
        if err.truthy then done [err]
        else if !skip.truthy then loadIt
        else skipIt)
      pure ()
    else do
      emit (Call.skipUserProfile [])
      let skip ← Eff.ofExcept (run []).outcome
      if !skip.truthy then loadIt else skipIt
  | SkipUserProfile.value skip =>
    if !skip.truthy then loadIt else skipIt

/-- The method `authenticate(req, options)`. -/
def authenticate (self : LinkedinTokenStrategy) (req : Request) : Eff Unit := do
  let queryError ← (if req.query.truthy then getProp req.query "error" else pure req.query)
  if queryError.truthy then self.callFail []
  else do
    let bodyAccess ← (if req.body.truthy then getProp req.body "access_token"
      else pure JSVal.undefined)
    let bodyRefresh ← (if req.body.truthy then getProp req.body "refresh_token"
      else pure JSVal.undefined)
    let accessToken ← orElse bodyAccess (do
      let q ← getProp req.query "access_token"
      orElse q (getProp req.headers "access_token"))
    let refreshToken ← orElse bodyRefresh (do
      let q ← getProp req.query "refresh_token"
      orElse q (getProp req.headers "refresh_token"))
    if !accessToken.truthy then self.callFail []
    else self._loadUserProfile accessToken (self.authenticateLoaded req accessToken refreshToken)

end LinkedinTokenStrategy

/-! ## The constructor's `profileUrl` -/

/-- An argument that the code tests with `Array.isArray` and `=== null`: omitted
(`undefined`), `null`, an array of strings, or any other value. -/
inductive ArrayArg where
  | undefined : ArrayArg
  | null : ArrayArg
  | array (items : List String) : ArrayArg
  | other : ArrayArg

/-- The own properties of the object literal `map` of `_convertScopeToUserProfileFields`. -/
def scopeMap : List (String × List String) :=
  [ ("r_basicprofile",
      [ "id", "first-name", "last-name", "picture-url", "formatted-name", "maiden-name",
        "phonetic-first-name", "phonetic-last-name", "formatted-phonetic-name", "headline",
        "location:(name,country:(code))", "industry", "distance",
        "relation-to-viewer:(distance,connections)", "current-share", "num-connections",
        "num-connections-capped", "summary", "specialties", "positions",
        "site-standard-profile-request", "api-standard-profile-request:(headers,url)",
        "public-profile-url" ]),
    ("r_emailaddress", [ "email-address" ]),
    ("r_fullprofile",
      [ "last-modified-timestamp", "proposal-comments", "associations", "interests",
        "publications", "patents", "languages", "skills", "certifications", "educations",
        "courses", "volunteer", "three-current-positions", "three-past-positions",
        "num-recommenders", "recommendations-received", "mfeed-rss-url", "following",
        "job-bookmarks", "suggestions", "date-of-birth", "member-url-resources:(name,url)",
        "related-profile-views", "honors-awards" ]) ]

/-- The step of `scope.forEach`: `map[f]` is an own entry of the table (an array,
appended element by element), or a member that the object literal inherits from
`Object.prototype` (not an array, pushed as one element, which `join` renders as
the text `protoMember f`), or `undefined` (skipped). -/
def pushScopeFields (protoMember : String → Option String) (fields : List String)
    (f : String) : List String :=
  match scopeMap.lookup f with
  | some own => fields ++ own
  | none =>
    match protoMember f with
    | some text => fields ++ [text]
    | none => fields

/-- The method `_convertScopeToUserProfileFields(scope, profileFields)` of `lib/strategy.js`. -/
def _convertScopeToUserProfileFields (protoMember : String → Option String)
    (scope profileFields : ArrayArg) : String :=
  let fields : List String :=
    match scope, profileFields with
    | ArrayArg.array scope, ArrayArg.null =>
      let scope := if "r_basicprofile" ∈ scope then scope else "r_basicprofile" :: scope
      scope.foldl (pushScopeFields protoMember) []
    | _, ArrayArg.array profileFields => profileFields
    | _, _ => []
  ",".intercalate fields

/-- The options object read by the constructors. -/
structure Options where
  profileURL : Option String
  scope : ArrayArg
  profileFields : ArrayArg

/-- The value the constructor of `lib/strategy.js` assigns to `this.profileUrl`. -/
def constructProfileUrl (protoMember : String → Option String) (options : Options) : String :=
  "https://api.linkedin.com/v1/people/~:("
    ++ _convertScopeToUserProfileFields protoMember options.scope options.profileFields ++ ")"

/-- The value the constructor of `lib/passport-linkedin-token-oauth2/strategy.js`
assigns to `this.profileUrl`: `options.profileURL || <default>`. -/
def constructProfileUrlFixed (options : Options) : String :=
  match options.profileURL with
  | some url =>
    if url ≠ "" then url
    else "https://api.linkedin.com/v1/people/~:(id,first-name,last-name,email-address,public-profile-url)?format=json"
  | none =>
    "https://api.linkedin.com/v1/people/~:(id,first-name,last-name,email-address,public-profile-url)?format=json"

/-! ## Specification-side definitions -/

/-- Body first, then query, then headers: the first truthy value, else the last one. -/
def precedence (body query headers : JSVal) : JSVal :=
  if body.truthy then body else if query.truthy then query else headers

/-- The three-way dispatch of the verify callback's report `(err, user, info)`. -/
def verifiedCall (args : List JSVal) : Call :=
  if (arg args 0).truthy then Call.error [arg args 0]
  else if !(arg args 1).truthy then Call.fail [arg args 2]
  else Call.success [arg args 1, arg args 2]

/-- Every `success(user, info)` of the trace answers a report `(err, user, info)`
with falsy `err` and truthy `user`, made by a verify call of the same trace. -/
def SuccessOnlyVerified (self : LinkedinTokenStrategy) (t : List Call) : Prop :=
  ∀ a, Call.success a ∈ t →
    ∃ vargs rargs, Call.verify vargs ∈ t ∧ rargs ∈ (self._verify vargs).calls
      ∧ (arg rargs 0).truthy = false ∧ (arg rargs 1).truthy = true
      ∧ a = [arg rargs 1, arg rargs 2]

/-- The normalized profile of the specification: `provider` is the constant
`linkedin`, `id`, `displayName`, `name` and `emails` are taken from the JSON
fields `id`, `formattedName`, `lastName` / `firstName` and `emailAddress`,
`photos` holds `pictureUrl` when that is truthy and is empty otherwise, and the
raw body and the parsed JSON are retained. -/
def normalizedProfile (body json : JSVal) : JSVal :=
  JSVal.obj [
    ("provider", JSVal.str "linkedin"),
    ("id", json.field "id"),
    ("displayName", json.field "formattedName"),
    ("name", JSVal.obj [("familyName", json.field "lastName"),
      ("givenName", json.field "firstName")]),
    ("emails", JSVal.arr [JSVal.obj [("value", json.field "emailAddress")]]),
    ("photos", JSVal.arr
      (if (json.field "pictureUrl").truthy then [json.field "pictureUrl"] else [])),
    ("_raw", body),
    ("_json", json)]

/-- The calls by which the framework learns the outcome of an authentication. -/
def Call.isTerminal : Call → Bool
  | Call.success _ => true
  | Call.fail _ => true
  | Call.error _ => true
  | _ => false

/-- A continuation that only records that it was invoked, and with which arguments. -/
def record (args : List JSVal) : Eff Unit := emit (Call.done args)

/-! ## Sample collaborators -/

/-- A response body of the profile endpoint. -/
def adaBody : String :=
  "\x7b\"id\":\"42\",\"formattedName\":\"Ada Lovelace\",\"firstName\":\"Ada\",\"lastName\":\"Lovelace\",\"emailAddress\":\"ada@example.com\"\x7d"

/-- The value `JSON.parse` yields for `adaBody`. -/
def adaJson : JSVal := JSVal.obj [
  ("id", JSVal.str "42"),
  ("formattedName", JSVal.str "Ada Lovelace"),
  ("firstName", JSVal.str "Ada"),
  ("lastName", JSVal.str "Lovelace"),
  ("emailAddress", JSVal.str "ada@example.com")]

/-- A second response body: the first one plus a picture URL. -/
def adaPictureBody : String :=
  "\x7b\"id\":\"42\",\"formattedName\":\"Ada Lovelace\",\"firstName\":\"Ada\",\"lastName\":\"Lovelace\",\"emailAddress\":\"ada@example.com\",\"pictureUrl\":\"http://x/y.jpg\"\x7d"

/-- The value `JSON.parse` yields for `adaPictureBody`. -/
def adaPictureJson : JSVal := JSVal.obj [
  ("id", JSVal.str "42"),
  ("formattedName", JSVal.str "Ada Lovelace"),
  ("firstName", JSVal.str "Ada"),
  ("lastName", JSVal.str "Lovelace"),
  ("emailAddress", JSVal.str "ada@example.com"),
  ("pictureUrl", JSVal.str "http://x/y.jpg")]

/-- A third response body: a picture URL that is the empty string. -/
def emptyPictureBody : String := "\x7b\"id\":\"42\",\"pictureUrl\":\"\"\x7d"

/-- The value `JSON.parse` yields for `emptyPictureBody`. -/
def emptyPictureJson : JSVal := JSVal.obj [("id", JSVal.str "42"), ("pictureUrl", JSVal.str "")]

/-- A stand-in for `JSON.parse` on the sample bodies; every other text is rejected. -/
def sampleParse (body : JSVal) : Except String JSVal :=
  match body with
  | JSVal.str s =>
    if s = adaBody then Except.ok adaJson
    else if s = adaPictureBody then Except.ok adaPictureJson
    else if s = emptyPictureBody then Except.ok emptyPictureJson
    else Except.error "Unexpected token"
  | _ => Except.error "Unexpected token"

/-- A strategy whose collaborators all behave: the profile endpoint answers
`adaBody`, the verify callback accepts user `ada`, nothing raises. -/
def sampleStrategy : LinkedinTokenStrategy where
  _passReqToCallback := JSVal.undefined
  _skipUserProfile := SkipUserProfile.value (JSVal.bool false)
  profileUrl := constructProfileUrlFixed ⟨none, ArrayArg.undefined, ArrayArg.undefined⟩
  _verify := fun _ => ⟨[[JSVal.null, JSVal.str "ada"]], Except.ok JSVal.undefined⟩
  oauth2Get := fun _ => ⟨[[JSVal.null, JSVal.str adaBody]], Except.ok JSVal.undefined⟩
  success := fun _ => Except.ok ()
  fail := fun _ => Except.ok ()
  error := fun _ => Except.ok ()
  jsonParse := sampleParse

/-- The sample strategy with a profile endpoint that answers `emptyPictureBody`. -/
def emptyPictureStrategy : LinkedinTokenStrategy :=
  { sampleStrategy with
    oauth2Get := fun _ => ⟨[[JSVal.null, JSVal.str emptyPictureBody]], Except.ok JSVal.undefined⟩ }

/-- The sample strategy with a profile endpoint that answers `adaPictureBody`. -/
def adaPictureStrategy : LinkedinTokenStrategy :=
  { sampleStrategy with
    oauth2Get := fun _ => ⟨[[JSVal.null, JSVal.str adaPictureBody]], Except.ok JSVal.undefined⟩ }

/-- The sample strategy with a profile endpoint that answers text that is not JSON. -/
def malformedStrategy : LinkedinTokenStrategy :=
  { sampleStrategy with
    oauth2Get := fun _ => ⟨[[JSVal.null, JSVal.str "<html>"]], Except.ok JSVal.undefined⟩ }

/-- The sample strategy with an OAuth2 client whose request fails in transport. -/
def fetchErrorStrategy : LinkedinTokenStrategy :=
  { sampleStrategy with
    oauth2Get := fun _ => ⟨[[JSVal.str "ECONNRESET"]], Except.ok JSVal.undefined⟩ }

/-- The sample strategy with an asynchronous skip predicate that signals an error. -/
def skipErrorStrategy : LinkedinTokenStrategy :=
  { sampleStrategy with
    _skipUserProfile := SkipUserProfile.fn 2
      (fun _ => ⟨[[JSVal.str "lookup failed"]], Except.ok JSVal.undefined⟩) }

/-- The sample strategy with a synchronous zero-argument skip predicate that returns `true`. -/
def skipAlwaysStrategy : LinkedinTokenStrategy :=
  { sampleStrategy with
    _skipUserProfile := SkipUserProfile.fn 0 (fun _ => ⟨[], Except.ok (JSVal.bool true)⟩) }

/-- The sample strategy with the skip option set to the value `true`. -/
def skipTrueStrategy : LinkedinTokenStrategy :=
  { sampleStrategy with _skipUserProfile := SkipUserProfile.value (JSVal.bool true) }

/-- An `Error` object with message `boom`. -/
def boom : JSVal := JSVal.obj [("name", JSVal.str "Error"), ("message", JSVal.str "boom")]

/-- The sample strategy with a verify callback that reports user `ada` once and
then raises. -/
def raisingVerifyStrategy : LinkedinTokenStrategy :=
  { sampleStrategy with
    _verify := fun _ => ⟨[[JSVal.null, JSVal.str "ada"]], Except.error boom⟩ }

/-- The sample strategy in a framework whose `success` raises. -/
def raisingSuccessStrategy : LinkedinTokenStrategy :=
  { sampleStrategy with success := fun _ => Except.error boom }

/-- A request with an access token in its body only. -/
def bodyRequest : Request where
  body := JSVal.obj [("access_token", JSVal.str "token")]
  query := JSVal.obj []
  headers := JSVal.obj []

/-- A request that carries three different access tokens and refresh tokens. -/
def tripleRequest : Request where
  body := JSVal.obj [("access_token", JSVal.str "from-body"), ("refresh_token", JSVal.str "r-body")]
  query := JSVal.obj [("access_token", JSVal.str "from-query"), ("refresh_token", JSVal.str "r-query")]
  headers := JSVal.obj [("access_token", JSVal.str "from-header"), ("refresh_token", JSVal.str "r-header")]

/-! ## Lemmas on computations -/

open LinkedinTokenStrategy

namespace Eff

theorem pure_eq {α : Type} (a : α) : (pure a : Eff α) = ⟨[], Except.ok a⟩ := rfl

theorem bind_ok {α β : Type} (t : List Call) (a : α) (f : α → Eff β) :
    ((⟨t, Except.ok a⟩ : Eff α) >>= f) = ⟨t ++ (f a).trace, (f a).result⟩ := rfl

theorem bind_error {α β : Type} (t : List Call) (e : JSVal) (f : α → Eff β) :
    ((⟨t, Except.error e⟩ : Eff α) >>= f) = ⟨t, Except.error e⟩ := rfl

theorem eta {α : Type} (m : Eff α) : (⟨m.trace, m.result⟩ : Eff α) = m := rfl

theorem emit_bind {β : Type} (c : Call) (f : Unit → Eff β) :
    (emit c >>= f) = ⟨c :: (f ()).trace, (f ()).result⟩ := rfl

end Eff

theorem nullish_of_truthy (o : JSVal) (h : o.truthy = true) : o.nullish = false := by
  cases o <;> simp_all [JSVal.truthy, JSVal.nullish]

theorem field_eq_of_falsy (o : JSVal) (k : String) (h : o.truthy = false) :
    o.field k = JSVal.undefined := by
  cases o <;> simp_all [JSVal.truthy, JSVal.field]

theorem truthy_of_field_truthy (o : JSVal) (k : String) (h : (o.field k).truthy = true) :
    o.truthy = true := by
  cases o <;> simp_all [JSVal.truthy, JSVal.field]

theorem callFail_trace (self : LinkedinTokenStrategy) (args : List JSVal) :
    (self.callFail args).trace = [Call.fail args] := by
  unfold callFail
  rw [Eff.emit_bind]
  rfl

theorem callFail_result (self : LinkedinTokenStrategy) (args : List JSVal) :
    (self.callFail args).result = self.fail args := by
  unfold callFail
  rw [Eff.emit_bind]
  rfl

theorem callError_trace (self : LinkedinTokenStrategy) (args : List JSVal) :
    (self.callError args).trace = [Call.error args] := by
  unfold callError
  rw [Eff.emit_bind]
  rfl

theorem callSuccess_trace (self : LinkedinTokenStrategy) (args : List JSVal) :
    (self.callSuccess args).trace = [Call.success args] := by
  unfold callSuccess
  rw [Eff.emit_bind]
  rfl

/-- A request with a truthy `error` query parameter is failed at once. -/
theorem authenticate_of_query_error (self : LinkedinTokenStrategy) (req : Request)
    (h : (req.query.field "error").truthy = true) :
    self.authenticate req = self.callFail [] := by
  have hq : req.query.truthy = true := truthy_of_field_truthy _ _ h
  unfold authenticate
  simp only [hq, if_true, getProp, nullish_of_truthy _ hq, Eff.pure_eq, Eff.bind_ok, h,
    List.nil_append, Eff.eta, Bool.false_eq_true, if_false]

/-- Without an `error` parameter, and with the query and headers containers in
place, `authenticate` selects both tokens by `precedence` and either fails or
hands them to `_loadUserProfile`. -/
theorem authenticate_of_no_query_error (self : LinkedinTokenStrategy) (req : Request)
    (herr : (req.query.field "error").truthy = false)
    (hq : req.query.nullish = false) (hh : req.headers.nullish = false) :
    self.authenticate req =
      if (precedence (req.body.field "access_token") (req.query.field "access_token")
            (req.headers.field "access_token")).truthy
      then self._loadUserProfile
        (precedence (req.body.field "access_token") (req.query.field "access_token")
            (req.headers.field "access_token"))
        (self.authenticateLoaded req
          (precedence (req.body.field "access_token") (req.query.field "access_token")
            (req.headers.field "access_token"))
          (precedence (req.body.field "refresh_token") (req.query.field "refresh_token")
            (req.headers.field "refresh_token")))
      else self.callFail [] := by
  unfold authenticate
  have hb : ∀ k, (if req.body.truthy = true then getProp req.body k else pure JSVal.undefined)
      = (⟨[], Except.ok (req.body.field k)⟩ : Eff JSVal) := by
    intro k
    by_cases h : req.body.truthy = true
    · simp [h, getProp, nullish_of_truthy _ h, Eff.pure_eq]
    · simp at h
      simp [h, field_eq_of_falsy _ _ h, Eff.pure_eq]
  have hqe : (if req.query.truthy = true then getProp req.query "error" else pure req.query)
      = (⟨[], Except.ok (if req.query.truthy = true then req.query.field "error"
          else req.query)⟩ : Eff JSVal) := by
    by_cases h : req.query.truthy = true
    · simp [h, getProp, hq, Eff.pure_eq]
    · simp [h, Eff.pure_eq]
  have hqf : (if req.query.truthy = true then req.query.field "error"
      else req.query).truthy = false := by
    cases h : req.query.truthy
    · simp [h]
    · simp [herr]
  have hchain : ∀ k, orElse (req.body.field k) (do
        let q ← getProp req.query k
        orElse q (getProp req.headers k))
      = (⟨[], Except.ok (precedence (req.body.field k) (req.query.field k)
          (req.headers.field k))⟩ : Eff JSVal) := by
    intro k
    simp only [orElse, getProp, hq, hh, precedence, Eff.pure_eq, Eff.bind_ok]
    split_ifs <;> simp_all [Eff.bind_ok]
  rw [hqe, hb, hb]
  simp only [Eff.bind_ok, hqf, hchain, List.nil_append, Eff.eta]
  cases precedence (req.body.field "access_token") (req.query.field "access_token")
      (req.headers.field "access_token") |>.truthy <;> simp

/-! ## C2, C3, C4: rejecting a request, selecting the tokens -/

/-- C2 as stated fails: a request without an access token whose query container,
or whose headers container, is absent makes `authenticate` raise a TypeError
before any call: `fail()` is not called. -/
theorem authenticate_absent_container_raises :
    sampleStrategy.authenticate ⟨JSVal.undefined, JSVal.undefined, JSVal.obj []⟩
        = ⟨[], Except.error typeError⟩
      ∧ sampleStrategy.authenticate ⟨JSVal.undefined, JSVal.obj [], JSVal.undefined⟩
        = ⟨[], Except.error typeError⟩
      ∧ Call.fail [] ∉
        (sampleStrategy.authenticate ⟨JSVal.undefined, JSVal.undefined, JSVal.obj []⟩).trace
      ∧ Call.fail [] ∉
        (sampleStrategy.authenticate ⟨JSVal.undefined, JSVal.obj [], JSVal.undefined⟩).trace := by
  refine ⟨rfl, rfl, ?_, ?_⟩
  · show Call.fail [] ∉ []
    simp
  · show Call.fail [] ∉ []
    simp

/-- C2, amended: for every request whose query and headers containers are in
place (the body may be absent) and that has no truthy access token in its body,
its query parameters and its headers, `authenticate` is the single call `fail()`
with no argument: nothing else is called, in particular neither the skip
predicate nor the profile fetch nor the verify callback. -/
theorem authenticate_without_token_fails (self : LinkedinTokenStrategy) (req : Request)
    (hq : req.query.nullish = false) (hh : req.headers.nullish = false)
    (hbody : (req.body.field "access_token").truthy = false)
    (hquery : (req.query.field "access_token").truthy = false)
    (hheaders : (req.headers.field "access_token").truthy = false) :
    self.authenticate req = self.callFail []
      ∧ (self.authenticate req).trace = [Call.fail []] := by
  have key : self.authenticate req = self.callFail [] := by
    cases herr : (req.query.field "error").truthy
    · rw [authenticate_of_no_query_error self req herr hq hh]
      simp [precedence, hbody, hquery, hheaders]
    · exact authenticate_of_query_error self req herr
  exact ⟨key, by rw [key, callFail_trace]⟩

/-- C2, witness: a request without body and with empty query and headers. -/
theorem authenticate_without_token_fails_witness :
    (sampleStrategy.authenticate ⟨JSVal.undefined, JSVal.obj [], JSVal.obj []⟩).trace
      = [Call.fail []] :=
  (authenticate_without_token_fails sampleStrategy ⟨JSVal.undefined, JSVal.obj [], JSVal.obj []⟩
    rfl rfl rfl rfl rfl).2

/-- C3: for every request whose query parameter `error` is present and non-empty
(a truthy value, as every non-empty string is), whatever tokens the body, query
and headers carry, `authenticate` is the single call `fail()` with no argument
and returns what that call returns: no skip predicate, no profile fetch, no
verify callback. -/
theorem authenticate_query_error_fails (self : LinkedinTokenStrategy) (req : Request)
    (h : (req.query.field "error").truthy = true) :
    self.authenticate req = self.callFail []
      ∧ (self.authenticate req).trace = [Call.fail []]
      ∧ (self.authenticate req).result = self.fail [] := by
  have key := authenticate_of_query_error self req h
  exact ⟨key, by rw [key, callFail_trace], by rw [key, callFail_result]⟩

/-- C3, witness: `error=access_denied` next to tokens in body, query and headers. -/
theorem authenticate_query_error_fails_witness :
    (sampleStrategy.authenticate
      { tripleRequest with
        query := JSVal.obj [("error", JSVal.str "access_denied"),
          ("access_token", JSVal.str "from-query")] }).trace = [Call.fail []] :=
  (authenticate_query_error_fails sampleStrategy
    { tripleRequest with
      query := JSVal.obj [("error", JSVal.str "access_denied"),
        ("access_token", JSVal.str "from-query")] } rfl).2.1

/-- C4 as stated fails: a request without an `error` query parameter whose body
and query have no access token and whose headers carry one, but which has no
query container, makes `authenticate` raise a TypeError before any call, so the
header value is passed to nothing; and a request whose query carries the access
token, but which has no headers container, raises in the same way when the
refresh token is read, so the query value is passed to nothing. -/
theorem authenticate_precedence_absent_container :
    ((JSVal.undefined : JSVal).field "error").truthy = false
      ∧ ((JSVal.undefined : JSVal).field "access_token").truthy = false
      ∧ (JSVal.obj [("access_token", JSVal.str "h")]).field "access_token" = JSVal.str "h"
      ∧ sampleStrategy.authenticate
          ⟨JSVal.undefined, JSVal.undefined, JSVal.obj [("access_token", JSVal.str "h")]⟩
        = ⟨[], Except.error typeError⟩
      ∧ sampleStrategy.authenticate
          ⟨JSVal.undefined, JSVal.undefined, JSVal.obj [("access_token", JSVal.str "h")]⟩
        ≠ sampleStrategy._loadUserProfile (JSVal.str "h")
            (sampleStrategy.authenticateLoaded
              ⟨JSVal.undefined, JSVal.undefined, JSVal.obj [("access_token", JSVal.str "h")]⟩
              (JSVal.str "h") JSVal.undefined)
      ∧ (JSVal.obj [("access_token", JSVal.str "q")]).field "access_token" = JSVal.str "q"
      ∧ sampleStrategy.authenticate
          ⟨JSVal.undefined, JSVal.obj [("access_token", JSVal.str "q")], JSVal.undefined⟩
        = ⟨[], Except.error typeError⟩ := by
  refine ⟨rfl, rfl, rfl, rfl, ?_, rfl, rfl⟩
  intro h
  have ht := congrArg Eff.trace h
  have h1 : (sampleStrategy.authenticate
      ⟨JSVal.undefined, JSVal.undefined, JSVal.obj [("access_token", JSVal.str "h")]⟩).trace
      = [] := rfl
  have h2 : (sampleStrategy._loadUserProfile (JSVal.str "h")
      (sampleStrategy.authenticateLoaded
        ⟨JSVal.undefined, JSVal.undefined, JSVal.obj [("access_token", JSVal.str "h")]⟩
        (JSVal.str "h") JSVal.undefined)).trace
      = Call.setAccessTokenName "oauth2_access_token"
        :: (sampleStrategy._loadUserProfile (JSVal.str "h")
          (sampleStrategy.authenticateLoaded
            ⟨JSVal.undefined, JSVal.undefined, JSVal.obj [("access_token", JSVal.str "h")]⟩
            (JSVal.str "h") JSVal.undefined)).trace.tail := rfl
  rw [h1, h2] at ht
  cases ht

/-- C4, amended: token extraction precedence is body > query > headers.  For every
request without an `error` query parameter whose query and headers containers are
in place (the body may be absent) and that carries a (truthy) access token somewhere, `authenticate` is
`_loadUserProfile` called with the access token selected by `precedence`, and the
continuation it passes calls the verify callback with that access token and the
refresh token selected by the same rule from `refresh_token`.  For either key the
selected value is the body value when that is truthy, else the query value when
that is truthy, else the header value: with three distinct tokens the body wins. -/
theorem authenticate_token_precedence (self : LinkedinTokenStrategy) (req : Request)
    (accessToken refreshToken : JSVal)
    (herr : (req.query.field "error").truthy = false)
    (hq : req.query.nullish = false) (hh : req.headers.nullish = false)
    (haccess : accessToken = precedence (req.body.field "access_token")
      (req.query.field "access_token") (req.headers.field "access_token"))
    (hrefresh : refreshToken = precedence (req.body.field "refresh_token")
      (req.query.field "refresh_token") (req.headers.field "refresh_token"))
    (htoken : accessToken.truthy = true) :
    self.authenticate req
        = self._loadUserProfile accessToken
            (self.authenticateLoaded req accessToken refreshToken)
      ∧ (∀ profile, self.authenticateLoaded req accessToken refreshToken [JSVal.null, profile]
          = self.callVerify
              (if self._passReqToCallback.truthy
                then [req.toJS, accessToken, refreshToken, profile]
                else [accessToken, refreshToken, profile])
              self.verified)
      ∧ (∀ k, (req.body.field k).truthy = true →
          precedence (req.body.field k) (req.query.field k) (req.headers.field k)
            = req.body.field k)
      ∧ (∀ k, (req.body.field k).truthy = false → (req.query.field k).truthy = true →
          precedence (req.body.field k) (req.query.field k) (req.headers.field k)
            = req.query.field k)
      ∧ (∀ k, (req.body.field k).truthy = false → (req.query.field k).truthy = false →
          precedence (req.body.field k) (req.query.field k) (req.headers.field k)
            = req.headers.field k) := by
  refine ⟨?_, ?_, ?_, ?_, ?_⟩
  · rw [authenticate_of_no_query_error self req herr hq hh, ← haccess, ← hrefresh, htoken]
    simp
  · intro profile
    unfold authenticateLoaded
    cases self._passReqToCallback.truthy <;> simp [arg, JSVal.truthy]
  · intro k h
    simp [precedence, h]
  · intro k h1 h2
    simp [precedence, h1, h2]
  · intro k h1 h2
    simp [precedence, h1, h2]

/-- C4, witness: three distinct tokens, the body values are the ones passed on. -/
theorem authenticate_token_precedence_witness :
    sampleStrategy.authenticate tripleRequest
      = sampleStrategy._loadUserProfile (JSVal.str "from-body")
          (sampleStrategy.authenticateLoaded tripleRequest (JSVal.str "from-body")
            (JSVal.str "r-body")) :=
  (authenticate_token_precedence sampleStrategy tripleRequest (JSVal.str "from-body")
    (JSVal.str "r-body") rfl rfl rfl rfl rfl rfl).1

/-! ## C1: the verify callback's report -/

theorem verified_trace (self : LinkedinTokenStrategy) (args : List JSVal) :
    (self.verified args).trace = [verifiedCall args] := by
  cases h0 : (arg args 0).truthy <;> cases h1 : (arg args 1).truthy <;>
    simp [verified, verifiedCall, h0, h1, callError_trace, callFail_trace, callSuccess_trace]

theorem sov_nil (self : LinkedinTokenStrategy) : SuccessOnlyVerified self [] := by
  intro a h
  simp at h

theorem sov_append (self : LinkedinTokenStrategy) (t1 t2 : List Call)
    (h1 : SuccessOnlyVerified self t1) (h2 : SuccessOnlyVerified self t2) :
    SuccessOnlyVerified self (t1 ++ t2) := by
  intro a h
  rcases List.mem_append.mp h with h | h
  · obtain ⟨vargs, rargs, hv, hr⟩ := h1 a h
    exact ⟨vargs, rargs, List.mem_append.mpr (Or.inl hv), hr⟩
  · obtain ⟨vargs, rargs, hv, hr⟩ := h2 a h
    exact ⟨vargs, rargs, List.mem_append.mpr (Or.inr hv), hr⟩

theorem sov_of_no_success (self : LinkedinTokenStrategy) (t : List Call)
    (h : ∀ a, Call.success a ∉ t) : SuccessOnlyVerified self t :=
  fun a ha => absurd ha (h a)

theorem sov_bind (self : LinkedinTokenStrategy) {α β : Type} (m : Eff α) (f : α → Eff β)
    (hm : SuccessOnlyVerified self m.trace)
    (hf : ∀ a, SuccessOnlyVerified self (f a).trace) :
    SuccessOnlyVerified self (m >>= f).trace := by
  obtain ⟨t, r⟩ := m
  cases r with
  | error e => exact hm
  | ok a => exact sov_append self t (f a).trace hm (hf a)

theorem sov_tryCatch (self : LinkedinTokenStrategy) {α : Type} (m : Eff α)
    (h : JSVal → Eff α) (hm : SuccessOnlyVerified self m.trace)
    (hh : ∀ e, SuccessOnlyVerified self (h e).trace) :
    SuccessOnlyVerified self (Eff.tryCatch m h).trace := by
  obtain ⟨t, r⟩ := m
  cases r with
  | error e => exact sov_append self t (h e).trace hm (hh e)
  | ok a => exact hm

theorem sov_runCalls (self : LinkedinTokenStrategy) (k : List JSVal → Eff Unit)
    (hk : ∀ a, SuccessOnlyVerified self (k a).trace) (l : List (List JSVal)) :
    SuccessOnlyVerified self (runCalls k l).trace := by
  induction l with
  | nil => exact sov_nil self
  | cons a rest ih => exact sov_bind self (k a) (fun _ => runCalls k rest) (hk a) (fun _ => ih)

theorem sov_runScript (self : LinkedinTokenStrategy) (s : Script)
    (k : List JSVal → Eff Unit) (hk : ∀ a, SuccessOnlyVerified self (k a).trace) :
    SuccessOnlyVerified self (runScript s k).trace :=
  sov_bind self (runCalls k s.calls) (fun _ => Eff.ofExcept s.outcome)
    (sov_runCalls self k hk s.calls) (fun _ => sov_nil self)

theorem sov_ite (self : LinkedinTokenStrategy) {α : Type} (c : Prop) [Decidable c]
    (a b : Eff α) (ha : SuccessOnlyVerified self a.trace)
    (hb : SuccessOnlyVerified self b.trace) :
    SuccessOnlyVerified self (if c then a else b).trace := by
  split_ifs <;> assumption

theorem sov_getProp (self : LinkedinTokenStrategy) (o : JSVal) (k : String) :
    SuccessOnlyVerified self (getProp o k).trace := by
  unfold getProp
  split_ifs <;> exact sov_nil self

theorem sov_callFail (self : LinkedinTokenStrategy) (args : List JSVal) :
    SuccessOnlyVerified self (self.callFail args).trace := by
  rw [callFail_trace]
  exact sov_of_no_success self _ (by simp)

/-- The calls made while a verify script runs are the dispatches of its reports. -/
theorem runCalls_verified_mem (self : LinkedinTokenStrategy) (l : List (List JSVal))
    (c : Call) (h : c ∈ (runCalls self.verified l).trace) :
    ∃ rargs, rargs ∈ l ∧ c = verifiedCall rargs := by
  induction l with
  | nil => simp [runCalls, Eff.pure_eq] at h
  | cons a rest ih =>
    have hstep : (runCalls self.verified (a :: rest)).trace
        = verifiedCall a :: (match (self.verified a).result with
          | Except.ok _ => (runCalls self.verified rest).trace
          | Except.error _ => []) := by
      have ht := verified_trace self a
      show ((self.verified a) >>= fun _ => runCalls self.verified rest).trace = _
      generalize self.verified a = m at ht ⊢
      obtain ⟨t, r⟩ := m
      simp only at ht
      subst ht
      cases r <;> rfl
    rw [hstep] at h
    rcases List.mem_cons.mp h with h | h
    · exact ⟨a, List.mem_cons_self _ _, h⟩
    · cases hres : (self.verified a).result with
      | error e => simp [hres] at h
      | ok u =>
        simp only [hres] at h
        obtain ⟨rargs, hmem, hc⟩ := ih h
        exact ⟨rargs, List.mem_cons_of_mem _ hmem, hc⟩

theorem success_eq_verifiedCall (a rargs : List JSVal)
    (h : Call.success a = verifiedCall rargs) :
    (arg rargs 0).truthy = false ∧ (arg rargs 1).truthy = true
      ∧ a = [arg rargs 1, arg rargs 2] := by
  unfold verifiedCall at h
  split_ifs at h with h0 h1
  · simp at h1
    simp at h0
    injection h with h
    exact ⟨h0, h1, h⟩

theorem sov_callVerify (self : LinkedinTokenStrategy) (vargs : List JSVal) :
    SuccessOnlyVerified self (self.callVerify vargs self.verified).trace := by
  intro a ha
  have htrace : (self.callVerify vargs self.verified).trace
      = Call.verify vargs :: (runCalls self.verified (self._verify vargs).calls).trace := by
    unfold callVerify runScript
    rw [Eff.emit_bind]
    generalize runCalls self.verified (self._verify vargs).calls = m
    obtain ⟨t, r⟩ := m
    cases r with
    | error e => rfl
    | ok u =>
      cases hout : (self._verify vargs).outcome <;>
        simp [Eff.bind_ok, Eff.bind_error, Eff.ofExcept, hout, Eff.pure_eq]
  have hv : Call.verify vargs ∈ (self.callVerify vargs self.verified).trace := by
    rw [htrace]
    exact List.mem_cons_self _ _
  rw [htrace] at ha
  rcases List.mem_cons.mp ha with h | h
  · cases h
  · obtain ⟨rargs, hmem, hc⟩ := runCalls_verified_mem self _ _ h
    obtain ⟨h0, h1, hargs⟩ := success_eq_verifiedCall a rargs hc
    exact ⟨vargs, rargs, hv, hmem, h0, h1, hargs⟩

theorem sov_authenticateLoaded (self : LinkedinTokenStrategy) (req : Request)
    (accessToken refreshToken : JSVal) (args : List JSVal) :
    SuccessOnlyVerified self
      (self.authenticateLoaded req accessToken refreshToken args).trace := by
  unfold authenticateLoaded
  exact sov_ite self _ _ _ (sov_callFail self _)
    (sov_ite self _ _ _ (sov_callVerify self _) (sov_callVerify self _))

theorem sov_userProfileTry (self : LinkedinTokenStrategy) (body : JSVal)
    (done : List JSVal → Eff Unit) (hdone : ∀ a, SuccessOnlyVerified self (done a).trace) :
    SuccessOnlyVerified self (self.userProfileTry body done).trace := by
  unfold userProfileTry
  refine sov_bind self _ _ (sov_nil self) (fun json => ?_)
  refine sov_bind self _ _ (sov_getProp self _ _) (fun _ => ?_)
  refine sov_bind self _ _ (sov_getProp self _ _) (fun _ => ?_)
  refine sov_bind self _ _ (sov_getProp self _ _) (fun _ => ?_)
  refine sov_bind self _ _ (sov_getProp self _ _) (fun _ => ?_)
  refine sov_bind self _ _ (sov_getProp self _ _) (fun _ => ?_)
  refine sov_bind self _ _ (sov_getProp self _ _) (fun _ => ?_)
  exact hdone _

theorem sov_userProfileFetched (self : LinkedinTokenStrategy)
    (done : List JSVal → Eff Unit) (hdone : ∀ a, SuccessOnlyVerified self (done a).trace)
    (args : List JSVal) :
    SuccessOnlyVerified self (self.userProfileFetched done args).trace := by
  unfold userProfileFetched
  exact sov_ite self _ _ _ (hdone _)
    (sov_tryCatch self _ _ (sov_userProfileTry self _ done hdone) (fun e => hdone _))

theorem sov_userProfile (self : LinkedinTokenStrategy) (accessToken : JSVal)
    (done : List JSVal → Eff Unit) (hdone : ∀ a, SuccessOnlyVerified self (done a).trace) :
    SuccessOnlyVerified self (self.userProfile accessToken done).trace := by
  unfold userProfile
  refine sov_bind self _ _ (sov_of_no_success self _ (by simp [emit])) (fun _ => ?_)
  refine sov_bind self _ _ (sov_of_no_success self _ (by simp [emit])) (fun _ => ?_)
  refine sov_bind self _ _ ?_ (fun _ => sov_nil self)
  exact sov_runScript self _ _ (sov_userProfileFetched self done hdone)

theorem sov_loadUserProfile (self : LinkedinTokenStrategy) (accessToken : JSVal)
    (done : List JSVal → Eff Unit) (hdone : ∀ a, SuccessOnlyVerified self (done a).trace) :
    SuccessOnlyVerified self (self._loadUserProfile accessToken done).trace := by
  unfold _loadUserProfile
  split
  · refine sov_ite self _ _ _ ?_ ?_
    · refine sov_bind self _ _ (sov_of_no_success self _ (by simp [emit])) (fun _ => ?_)
      refine sov_bind self _ _ ?_ (fun _ => sov_nil self)
      refine sov_runScript self _ _ (fun args => ?_)
      exact sov_ite self _ _ _ (hdone _)
        (sov_ite self _ _ _ (sov_userProfile self _ done hdone) (hdone _))
    · refine sov_bind self _ _ (sov_of_no_success self _ (by simp [emit])) (fun _ => ?_)
      refine sov_bind self _ _ (sov_nil self) (fun skip => ?_)
      exact sov_ite self _ _ _ (sov_userProfile self _ done hdone) (hdone _)
  · exact sov_ite self _ _ _ (sov_userProfile self _ done hdone) (hdone _)

theorem sov_orElse (self : LinkedinTokenStrategy) (a : JSVal) (b : Eff JSVal)
    (hb : SuccessOnlyVerified self b.trace) :
    SuccessOnlyVerified self (orElse a b).trace := by
  unfold orElse
  split_ifs
  · exact sov_nil self
  · exact hb

theorem sov_authenticate (self : LinkedinTokenStrategy) (req : Request) :
    SuccessOnlyVerified self (self.authenticate req).trace := by
  unfold authenticate
  refine sov_bind self _ _ (sov_ite self _ _ _ (sov_getProp self _ _) (sov_nil self))
    (fun queryError => ?_)
  refine sov_ite self _ _ _ (sov_callFail self _) ?_
  refine sov_bind self _ _ (sov_ite self _ _ _ (sov_getProp self _ _) (sov_nil self))
    (fun bodyAccess => ?_)
  refine sov_bind self _ _ (sov_ite self _ _ _ (sov_getProp self _ _) (sov_nil self))
    (fun bodyRefresh => ?_)
  refine sov_bind self _ _ ?_ (fun accessToken => ?_)
  · refine sov_orElse self _ _ (sov_bind self _ _ (sov_getProp self _ _) (fun q => ?_))
    exact sov_orElse self _ _ (sov_getProp self _ _)
  refine sov_bind self _ _ ?_ (fun refreshToken => ?_)
  · refine sov_orElse self _ _ (sov_bind self _ _ (sov_getProp self _ _) (fun q => ?_))
    exact sov_orElse self _ _ (sov_getProp self _ _)
  exact sov_ite self _ _ _ (sov_callFail self _)
    (sov_loadUserProfile self _ _ (sov_authenticateLoaded self req _ _))

/-- C1: in both variants the continuation `verified` that `authenticate` hands to
the verify callback turns every report `(err, user, info)` into exactly one call:
`error(err)` when `err` is truthy, otherwise `fail(info)` when `user` is falsy,
otherwise `success(user, info)`.  Whenever `_loadUserProfile` reports no error,
the verify callback is called with that continuation; a verify callback that
reports once makes the run of the callback the verify call followed by that one
call; and in every run of `authenticate`, whatever the collaborators do, each
`success(user, info)` answers a report of the verify callback with a falsy error
and a truthy user, so success is never called for a reported error or a falsy user. -/
theorem verified_dispatch (self : LinkedinTokenStrategy) (req : Request)
    (accessToken refreshToken : JSVal) (loaded vargs rargs : List JSVal) :
    (self.verified rargs).trace
        = [if (arg rargs 0).truthy then Call.error [arg rargs 0]
           else if !(arg rargs 1).truthy then Call.fail [arg rargs 2]
           else Call.success [arg rargs 1, arg rargs 2]]
      ∧ ((arg loaded 0).truthy = false →
          self.authenticateLoaded req accessToken refreshToken loaded
            = self.callVerify
                (if self._passReqToCallback.truthy
                  then [req.toJS, accessToken, refreshToken, arg loaded 1]
                  else [accessToken, refreshToken, arg loaded 1])
                self.verified)
      ∧ (∀ outcome, self._verify vargs = ⟨[rargs], outcome⟩ →
          (self.callVerify vargs self.verified).trace
            = [Call.verify vargs,
               if (arg rargs 0).truthy then Call.error [arg rargs 0]
               else if !(arg rargs 1).truthy then Call.fail [arg rargs 2]
               else Call.success [arg rargs 1, arg rargs 2]])
      ∧ (∀ a, Call.success a ∈ (self.authenticate req).trace →
          ∃ vs rs, Call.verify vs ∈ (self.authenticate req).trace
            ∧ rs ∈ (self._verify vs).calls
            ∧ (arg rs 0).truthy = false ∧ (arg rs 1).truthy = true
            ∧ a = [arg rs 1, arg rs 2]) := by
  refine ⟨verified_trace self rargs, ?_, ?_, sov_authenticate self req⟩
  · intro h
    unfold authenticateLoaded
    cases self._passReqToCallback.truthy <;> simp [h]
  · intro outcome h
    have ht := verified_trace self rargs
    unfold verifiedCall at ht
    unfold callVerify runScript
    rw [Eff.emit_bind, h]
    simp only [runCalls]
    generalize self.verified rargs = m at ht ⊢
    obtain ⟨t, r⟩ := m
    simp only at ht
    subst ht
    cases r <;> cases outcome <;> rfl

/-- C1, witness: the `success` call of a run that accepts user `ada`. -/
theorem verified_dispatch_witness :
    ∃ vs rs, Call.verify vs ∈ (sampleStrategy.authenticate tripleRequest).trace
      ∧ rs ∈ (sampleStrategy._verify vs).calls
      ∧ (arg rs 0).truthy = false ∧ (arg rs 1).truthy = true
      ∧ [JSVal.str "ada", JSVal.undefined] = [arg rs 1, arg rs 2] :=
  (verified_dispatch sampleStrategy tripleRequest JSVal.undefined JSVal.undefined [] [] []).2.2.2
    [JSVal.str "ada", JSVal.undefined]
    (by
      rw [show (sampleStrategy.authenticate tripleRequest).trace
          = [Call.setAccessTokenName "oauth2_access_token",
             Call.get [JSVal.str sampleStrategy.profileUrl, JSVal.str "from-body"],
             Call.verify [JSVal.str "from-body", JSVal.str "r-body",
               JSVal.obj [
                ("provider", JSVal.str "linkedin"),
                ("id", JSVal.str "42"),
                ("displayName", JSVal.str "Ada Lovelace"),
                ("name", JSVal.obj [("familyName", JSVal.str "Lovelace"),
                  ("givenName", JSVal.str "Ada")]),
                ("emails", JSVal.arr [JSVal.obj [("value", JSVal.str "ada@example.com")]]),
                ("photos", JSVal.arr []),
                ("_raw", JSVal.str adaBody),
                ("_json", adaJson)]],
             Call.success [JSVal.str "ada", JSVal.undefined]] from rfl]
      simp)

/-! ## C5, C6: fetching and normalizing the profile -/

/-- With an OAuth2 client that invokes its callback once, `userProfile` sets the
token parameter name, issues the request and runs the callback. -/
theorem userProfile_of_single (self : LinkedinTokenStrategy) (accessToken : JSVal)
    (done : List JSVal → Eff Unit) (cb : List JSVal) (outcome : Except JSVal JSVal)
    (hget : self.oauth2Get [JSVal.str self.profileUrl, accessToken] = ⟨[cb], outcome⟩) :
    (self.userProfile accessToken done).trace
      = Call.setAccessTokenName "oauth2_access_token"
        :: Call.get [JSVal.str self.profileUrl, accessToken]
        :: (self.userProfileFetched done cb).trace := by
  unfold userProfile runScript
  rw [Eff.emit_bind, Eff.emit_bind, hget]
  simp only [runCalls]
  generalize self.userProfileFetched done cb = m
  obtain ⟨t, r⟩ := m
  cases r <;> cases outcome <;> simp [Eff.bind_ok, Eff.bind_error, Eff.ofExcept, Eff.pure_eq]

theorem userProfileTry_of_parsed (self : LinkedinTokenStrategy) (body json : JSVal)
    (done : List JSVal → Eff Unit) (hparse : self.jsonParse body = Except.ok json)
    (hjson : json.nullish = false) :
    self.userProfileTry body done = done [JSVal.null, normalizedProfile body json] := by
  unfold userProfileTry
  simp only [hparse, Except.mapError, Eff.ofExcept, getProp, hjson, Eff.pure_eq, Eff.bind_ok,
    List.nil_append, Eff.eta, Bool.false_eq_true, if_false, normalizedProfile]

theorem userProfileTry_of_parsed_nullish (self : LinkedinTokenStrategy) (body json : JSVal)
    (done : List JSVal → Eff Unit) (hparse : self.jsonParse body = Except.ok json)
    (hjson : json.nullish = true) :
    self.userProfileTry body done = ⟨[], Except.error typeError⟩ := by
  unfold userProfileTry
  simp [hparse, Except.mapError, Eff.ofExcept, getProp, hjson, Eff.bind_ok, Eff.raise,
    Eff.bind_error]

theorem userProfileTry_of_malformed (self : LinkedinTokenStrategy) (body : JSVal)
    (message : String) (done : List JSVal → Eff Unit)
    (hparse : self.jsonParse body = Except.error message) :
    self.userProfileTry body done = ⟨[], Except.error (syntaxError message)⟩ := by
  unfold userProfileTry
  simp [hparse, Except.mapError, Eff.ofExcept, Eff.bind_error]

/-- C5 as stated fails: for a body that parses to a JSON object in which
`pictureUrl` is present and is the empty string, `userProfile` calls
`done(null, profile)` with `photos` empty, not with `photos = [json.pictureUrl]`. -/
theorem userProfile_empty_pictureUrl :
    emptyPictureJson.field "pictureUrl" = JSVal.str ""
      ∧ (emptyPictureStrategy.userProfile (JSVal.str "token") record).trace
        = [Call.setAccessTokenName "oauth2_access_token",
           Call.get [JSVal.str emptyPictureStrategy.profileUrl, JSVal.str "token"],
           Call.done [JSVal.null, JSVal.obj [
            ("provider", JSVal.str "linkedin"),
            ("id", JSVal.str "42"),
            ("displayName", JSVal.undefined),
            ("name", JSVal.obj [("familyName", JSVal.undefined),
              ("givenName", JSVal.undefined)]),
            ("emails", JSVal.arr [JSVal.obj [("value", JSVal.undefined)]]),
            ("photos", JSVal.arr []),
            ("_raw", JSVal.str emptyPictureBody),
            ("_json", emptyPictureJson)]]] :=
  ⟨rfl, rfl⟩

/-- C5, amended: for every response that the OAuth2 client hands to its callback
without error and whose body parses to a JSON object `json`, `userProfile` calls
`done(null, profile)` once, where `provider` is `linkedin`, `id = json.id`,
`displayName = json.formattedName`, `name = {familyName: json.lastName,
givenName: json.firstName}`, `emails = [{value: json.emailAddress}]`, `photos` is
`[json.pictureUrl]` when `json.pictureUrl` is truthy and `[]` otherwise (so also
for a `pictureUrl` that is present but empty), `_raw` is the body and `_json` is
`json`.  For the body of Ada Lovelace the profile is the one of the
specification with `photos` empty, and with `pictureUrl` added `photos` is
`["http://x/y.jpg"]`. -/
theorem userProfile_normalizes (self : LinkedinTokenStrategy) (accessToken : JSVal)
    (cb : List JSVal) (outcome : Except JSVal JSVal) (fields : List (String × JSVal))
    (hget : self.oauth2Get [JSVal.str self.profileUrl, accessToken] = ⟨[cb], outcome⟩)
    (herr : (arg cb 0).truthy = false)
    (hparse : self.jsonParse (arg cb 1) = Except.ok (JSVal.obj fields)) :
    (self.userProfile accessToken record).trace
        = [Call.setAccessTokenName "oauth2_access_token",
           Call.get [JSVal.str self.profileUrl, accessToken],
           Call.done [JSVal.null, JSVal.obj [
            ("provider", JSVal.str "linkedin"),
            ("id", JSVal.lookup "id" fields),
            ("displayName", JSVal.lookup "formattedName" fields),
            ("name", JSVal.obj [("familyName", JSVal.lookup "lastName" fields),
              ("givenName", JSVal.lookup "firstName" fields)]),
            ("emails", JSVal.arr [JSVal.obj [("value", JSVal.lookup "emailAddress" fields)]]),
            ("photos", JSVal.arr
              (if (JSVal.lookup "pictureUrl" fields).truthy
                then [JSVal.lookup "pictureUrl" fields] else [])),
            ("_raw", arg cb 1),
            ("_json", JSVal.obj fields)]]]
      ∧ (arg cb 1 = JSVal.str adaBody → JSVal.obj fields = adaJson →
          (self.userProfile accessToken record).trace
            = [Call.setAccessTokenName "oauth2_access_token",
               Call.get [JSVal.str self.profileUrl, accessToken],
               Call.done [JSVal.null, JSVal.obj [
                ("provider", JSVal.str "linkedin"),
                ("id", JSVal.str "42"),
                ("displayName", JSVal.str "Ada Lovelace"),
                ("name", JSVal.obj [("familyName", JSVal.str "Lovelace"),
                  ("givenName", JSVal.str "Ada")]),
                ("emails", JSVal.arr [JSVal.obj [("value", JSVal.str "ada@example.com")]]),
                ("photos", JSVal.arr []),
                ("_raw", JSVal.str adaBody),
                ("_json", adaJson)]]])
      ∧ (arg cb 1 = JSVal.str adaPictureBody → JSVal.obj fields = adaPictureJson →
          (self.userProfile accessToken record).trace
            = [Call.setAccessTokenName "oauth2_access_token",
               Call.get [JSVal.str self.profileUrl, accessToken],
               Call.done [JSVal.null, JSVal.obj [
                ("provider", JSVal.str "linkedin"),
                ("id", JSVal.str "42"),
                ("displayName", JSVal.str "Ada Lovelace"),
                ("name", JSVal.obj [("familyName", JSVal.str "Lovelace"),
                  ("givenName", JSVal.str "Ada")]),
                ("emails", JSVal.arr [JSVal.obj [("value", JSVal.str "ada@example.com")]]),
                ("photos", JSVal.arr [JSVal.str "http://x/y.jpg"]),
                ("_raw", JSVal.str adaPictureBody),
                ("_json", adaPictureJson)]]]) := by
  have key : ∀ json, self.jsonParse (arg cb 1) = Except.ok json → json.nullish = false →
      (self.userProfile accessToken record).trace
        = [Call.setAccessTokenName "oauth2_access_token",
           Call.get [JSVal.str self.profileUrl, accessToken],
           Call.done [JSVal.null, normalizedProfile (arg cb 1) json]] := by
    intro json hp hj
    rw [userProfile_of_single self accessToken record cb outcome hget]
    unfold userProfileFetched
    simp only [herr, Bool.false_eq_true, if_false]
    rw [userProfileTry_of_parsed self _ json record hp hj]
    rfl
  refine ⟨key _ hparse rfl, ?_, ?_⟩
  · intro hbody hjson
    rw [hjson] at hparse
    rw [key _ hparse rfl, hbody]
    rfl
  · intro hbody hjson
    rw [hjson] at hparse
    rw [key _ hparse rfl, hbody]
    rfl

/-- C5, witness: the Ada Lovelace body with a picture URL. -/
theorem userProfile_normalizes_witness :
    (adaPictureStrategy.userProfile (JSVal.str "token") record).trace
      = [Call.setAccessTokenName "oauth2_access_token",
         Call.get [JSVal.str adaPictureStrategy.profileUrl, JSVal.str "token"],
         Call.done [JSVal.null, JSVal.obj [
          ("provider", JSVal.str "linkedin"),
          ("id", JSVal.str "42"),
          ("displayName", JSVal.str "Ada Lovelace"),
          ("name", JSVal.obj [("familyName", JSVal.str "Lovelace"),
            ("givenName", JSVal.str "Ada")]),
          ("emails", JSVal.arr [JSVal.obj [("value", JSVal.str "ada@example.com")]]),
          ("photos", JSVal.arr [JSVal.str "http://x/y.jpg"]),
          ("_raw", JSVal.str adaPictureBody),
          ("_json", adaPictureJson)]]] :=
  (userProfile_normalizes adaPictureStrategy (JSVal.str "token")
    [JSVal.null, JSVal.str adaPictureBody] (Except.ok JSVal.undefined)
    [ ("id", JSVal.str "42"),
      ("formattedName", JSVal.str "Ada Lovelace"),
      ("firstName", JSVal.str "Ada"),
      ("lastName", JSVal.str "Lovelace"),
      ("emailAddress", JSVal.str "ada@example.com"),
      ("pictureUrl", JSVal.str "http://x/y.jpg") ]
    rfl rfl rfl).2.2 rfl rfl

theorem mem_bind_trace {α β : Type} (m : Eff α) (f : α → Eff β) (c : Call)
    (h : c ∈ (m >>= f).trace) : c ∈ m.trace ∨ ∃ a, c ∈ (f a).trace := by
  obtain ⟨t, r⟩ := m
  cases r with
  | error e => exact Or.inl h
  | ok a =>
    rcases List.mem_append.mp h with h | h
    · exact Or.inl h
    · exact Or.inr ⟨a, h⟩

theorem mem_runCalls_trace (k : List JSVal → Eff Unit) (l : List (List JSVal)) (c : Call)
    (h : c ∈ (runCalls k l).trace) : ∃ a, a ∈ l ∧ c ∈ (k a).trace := by
  induction l with
  | nil => simp [runCalls, Eff.pure_eq] at h
  | cons a rest ih =>
    rcases mem_bind_trace (k a) (fun _ => runCalls k rest) c h with h | ⟨_, h⟩
    · exact ⟨a, List.mem_cons_self _ _, h⟩
    · obtain ⟨b, hb, hc⟩ := ih h
      exact ⟨b, List.mem_cons_of_mem _ hb, hc⟩

/-- A profile reaches the recording continuation of `userProfile` only from a
callback without error whose body parsed. -/
theorem userProfileFetched_profile (self : LinkedinTokenStrategy) (cb args : List JSVal)
    (h : Call.done args ∈ (self.userProfileFetched record cb).trace)
    (hprofile : arg args 1 ≠ JSVal.undefined) :
    (arg cb 0).truthy = false ∧ ∃ json, self.jsonParse (arg cb 1) = Except.ok json
      ∧ args = [JSVal.null, normalizedProfile (arg cb 1) json] := by
  unfold userProfileFetched at h
  cases herr : (arg cb 0).truthy with
  | true =>
    simp only [herr, if_true, record, emit, List.mem_singleton] at h
    injection h with h
    subst h
    exact absurd rfl hprofile
  | false =>
    refine ⟨rfl, ?_⟩
    simp only [herr, Bool.false_eq_true, if_false] at h
    cases hparse : self.jsonParse (arg cb 1) with
    | error message =>
      rw [userProfileTry_of_malformed self _ message record hparse] at h
      simp only [Eff.tryCatch, record, emit, List.nil_append, List.mem_singleton] at h
      injection h with h
      subst h
      exact absurd rfl hprofile
    | ok json =>
      cases hjson : json.nullish with
      | true =>
        rw [userProfileTry_of_parsed_nullish self _ json record hparse hjson] at h
        simp only [Eff.tryCatch, record, emit, List.nil_append, List.mem_singleton] at h
        injection h with h
        subst h
        exact absurd rfl hprofile
      | false =>
        rw [userProfileTry_of_parsed self _ json record hparse hjson] at h
        simp only [Eff.tryCatch, record, emit, List.mem_singleton] at h
        injection h with h
        exact ⟨json, rfl, h⟩

/-- C6: for every response that the OAuth2 client hands to its callback without
transport error and whose body `JSON.parse` rejects, `userProfile` calls its
callback once, with the SyntaxError (an object, so neither `null` nor falsy) as
only argument and no profile.  And whatever the OAuth2 client does, a call of the
callback with a profile argument stems from a response without error whose body
parsed, and then carries `null` as error and the complete normalized profile of
that body. -/
theorem userProfile_malformed (self : LinkedinTokenStrategy) (accessToken : JSVal) :
    (∀ cb outcome message,
        self.oauth2Get [JSVal.str self.profileUrl, accessToken] = ⟨[cb], outcome⟩ →
        (arg cb 0).truthy = false →
        self.jsonParse (arg cb 1) = Except.error message →
        (self.userProfile accessToken record).trace
            = [Call.setAccessTokenName "oauth2_access_token",
               Call.get [JSVal.str self.profileUrl, accessToken],
               Call.done [syntaxError message]]
          ∧ (syntaxError message).truthy = true
          ∧ syntaxError message ≠ JSVal.null
          ∧ arg [syntaxError message] 1 = JSVal.undefined)
      ∧ (∀ args, Call.done args ∈ (self.userProfile accessToken record).trace →
          arg args 1 ≠ JSVal.undefined →
          ∃ cb json, cb ∈ (self.oauth2Get [JSVal.str self.profileUrl, accessToken]).calls
            ∧ (arg cb 0).truthy = false
            ∧ self.jsonParse (arg cb 1) = Except.ok json
            ∧ args = [JSVal.null, normalizedProfile (arg cb 1) json]) := by
  constructor
  · intro cb outcome message hget herr hparse
    refine ⟨?_, rfl, ?_, rfl⟩
    · rw [userProfile_of_single self accessToken record cb outcome hget]
      unfold userProfileFetched
      simp only [herr, Bool.false_eq_true, if_false]
      rw [userProfileTry_of_malformed self _ message record hparse]
      rfl
    · intro h
      cases h
  · intro args h hprofile
    unfold userProfile at h
    rcases mem_bind_trace _ _ _ h with h | ⟨_, h⟩
    · simp [emit] at h
    rcases mem_bind_trace _ _ _ h with h | ⟨_, h⟩
    · simp [emit] at h
    rcases mem_bind_trace _ _ _ h with h | ⟨_, h⟩
    · unfold runScript at h
      rcases mem_bind_trace _ _ _ h with h | ⟨_, h⟩
      · obtain ⟨cb, hcb, hc⟩ := mem_runCalls_trace _ _ _ h
        obtain ⟨herr, json, hparse, hargs⟩ := userProfileFetched_profile self cb args hc hprofile
        exact ⟨cb, json, hcb, herr, hparse, hargs⟩
      · simp [Eff.ofExcept] at h
    · simp [Eff.pure_eq] at h

/-- C6, witness: a body that is not JSON. -/
theorem userProfile_malformed_witness :
    (malformedStrategy.userProfile (JSVal.str "token") record).trace
        = [Call.setAccessTokenName "oauth2_access_token",
           Call.get [JSVal.str malformedStrategy.profileUrl, JSVal.str "token"],
           Call.done [syntaxError "Unexpected token"]]
      ∧ (syntaxError "Unexpected token").truthy = true
      ∧ syntaxError "Unexpected token" ≠ JSVal.null
      ∧ arg [syntaxError "Unexpected token"] 1 = JSVal.undefined :=
  (userProfile_malformed malformedStrategy (JSVal.str "token")).1
    [JSVal.null, JSVal.str "<html>"] (Except.ok JSVal.undefined) "Unexpected token" rfl rfl rfl

/-! ## C7, C9: the conditional fetch and its errors -/

theorem loadUserProfile_of_falsy_value (self : LinkedinTokenStrategy) (accessToken : JSVal)
    (done : List JSVal → Eff Unit) (v : JSVal)
    (hskip : self._skipUserProfile = SkipUserProfile.value v) (hv : v.truthy = false) :
    self._loadUserProfile accessToken done = self.userProfile accessToken done := by
  unfold _loadUserProfile
  rw [hskip]
  simp [hv]

theorem loadUserProfile_of_truthy_value (self : LinkedinTokenStrategy) (accessToken : JSVal)
    (done : List JSVal → Eff Unit) (v : JSVal)
    (hskip : self._skipUserProfile = SkipUserProfile.value v) (hv : v.truthy = true) :
    self._loadUserProfile accessToken done = done [JSVal.null] := by
  unfold _loadUserProfile
  rw [hskip]
  simp [hv]

theorem loadUserProfile_of_sync_true (self : LinkedinTokenStrategy) (accessToken : JSVal)
    (done : List JSVal → Eff Unit) (length : Nat) (run : List JSVal → Script) (v : JSVal)
    (hskip : self._skipUserProfile = SkipUserProfile.fn length run) (hlength : length ≤ 1)
    (hrun : (run []).outcome = Except.ok v) (hv : v.truthy = true) :
    self._loadUserProfile accessToken done
      = ⟨Call.skipUserProfile [] :: (done [JSVal.null]).trace, (done [JSVal.null]).result⟩ := by
  unfold _loadUserProfile
  rw [hskip]
  have hn : ¬ (length > 1) := by omega
  simp only [hn, if_false, Eff.emit_bind, hrun, Eff.ofExcept, Eff.bind_ok, hv, Bool.not_true,
    Bool.false_eq_true, List.nil_append]

theorem loadUserProfile_of_async_single (self : LinkedinTokenStrategy) (accessToken : JSVal)
    (done : List JSVal → Eff Unit) (length : Nat) (run : List JSVal → Script)
    (cb : List JSVal) (outcome : Except JSVal JSVal)
    (hskip : self._skipUserProfile = SkipUserProfile.fn length run) (hlength : 1 < length)
    (hrun : run [accessToken] = ⟨[cb], outcome⟩) (herr : (arg cb 0).truthy = true) :
    (self._loadUserProfile accessToken done).trace
      = Call.skipUserProfile [accessToken] :: (done [arg cb 0]).trace := by
  unfold _loadUserProfile
  rw [hskip]
  have hn : length > 1 := hlength
  simp only [hn, if_true, Eff.emit_bind, runScript, hrun, runCalls, herr]
  generalize done [arg cb 0] = m
  obtain ⟨t, r⟩ := m
  cases r <;> cases outcome <;> simp [Eff.bind_ok, Eff.bind_error, Eff.ofExcept, Eff.pure_eq]

theorem authenticateLoaded_of_error (self : LinkedinTokenStrategy) (req : Request)
    (accessToken refreshToken : JSVal) (loaded : List JSVal)
    (h : (arg loaded 0).truthy = true) :
    self.authenticateLoaded req accessToken refreshToken loaded
      = self.callFail [arg loaded 0] := by
  unfold authenticateLoaded
  simp [h]

/-- C7 as stated fails: when the profile request fails in transport,
`authenticate` reports the wrapped error through `fail`, and `error` is not called. -/
theorem authenticate_fetch_error_calls_fail :
    (fetchErrorStrategy.authenticate bodyRequest).trace
        = [Call.setAccessTokenName "oauth2_access_token",
           Call.get [JSVal.str fetchErrorStrategy.profileUrl, JSVal.str "token"],
           Call.fail [InternalOAuthError "failed to fetch user profile"
             (JSVal.str "ECONNRESET")]]
      ∧ ∀ a, Call.error a ∉ (fetchErrorStrategy.authenticate bodyRequest).trace := by
  have h : (fetchErrorStrategy.authenticate bodyRequest).trace
      = [Call.setAccessTokenName "oauth2_access_token",
         Call.get [JSVal.str fetchErrorStrategy.profileUrl, JSVal.str "token"],
         Call.fail [InternalOAuthError "failed to fetch user profile"
           (JSVal.str "ECONNRESET")]] := rfl
  refine ⟨h, ?_⟩
  intro a
  rw [h]
  simp

/-- C7, amended: every error that `_loadUserProfile` reports is handed to the
framework through `fail`, with the error as its argument, and not through
`error`: the continuation that `authenticate` passes to `_loadUserProfile` turns
each report with a truthy error into the single call `fail(err)`.  So for every
request that carries an access token (no `error` parameter, query and headers
containers in place): a transport failure makes `authenticate` call
`fail(InternalOAuthError('failed to fetch user profile', err))`, a body that does
not parse makes it call `fail` with the SyntaxError, and an error signalled by an
asynchronous skip predicate makes it call `fail` with that error; in each case
this is the only call into the framework and the verify callback is not called. -/
theorem authenticate_load_error_fails (self : LinkedinTokenStrategy) (req : Request)
    (accessToken refreshToken : JSVal)
    (herr : (req.query.field "error").truthy = false)
    (hq : req.query.nullish = false) (hh : req.headers.nullish = false)
    (haccess : accessToken = precedence (req.body.field "access_token")
      (req.query.field "access_token") (req.headers.field "access_token"))
    (hrefresh : refreshToken = precedence (req.body.field "refresh_token")
      (req.query.field "refresh_token") (req.headers.field "refresh_token"))
    (htoken : accessToken.truthy = true) :
    (∀ loaded, (arg loaded 0).truthy = true →
        self.authenticateLoaded req accessToken refreshToken loaded
            = self.callFail [arg loaded 0]
          ∧ (self.authenticateLoaded req accessToken refreshToken loaded).trace
            = [Call.fail [arg loaded 0]])
      ∧ (∀ v cb outcome, self._skipUserProfile = SkipUserProfile.value v →
          v.truthy = false →
          self.oauth2Get [JSVal.str self.profileUrl, accessToken] = ⟨[cb], outcome⟩ →
          (arg cb 0).truthy = true →
          (self.authenticate req).trace
            = [Call.setAccessTokenName "oauth2_access_token",
               Call.get [JSVal.str self.profileUrl, accessToken],
               Call.fail [InternalOAuthError "failed to fetch user profile" (arg cb 0)]])
      ∧ (∀ v cb outcome message, self._skipUserProfile = SkipUserProfile.value v →
          v.truthy = false →
          self.oauth2Get [JSVal.str self.profileUrl, accessToken] = ⟨[cb], outcome⟩ →
          (arg cb 0).truthy = false →
          self.jsonParse (arg cb 1) = Except.error message →
          (self.authenticate req).trace
            = [Call.setAccessTokenName "oauth2_access_token",
               Call.get [JSVal.str self.profileUrl, accessToken],
               Call.fail [syntaxError message]])
      ∧ (∀ length run cb outcome, self._skipUserProfile = SkipUserProfile.fn length run →
          1 < length →
          run [accessToken] = ⟨[cb], outcome⟩ →
          (arg cb 0).truthy = true →
          (self.authenticate req).trace
            = [Call.skipUserProfile [accessToken], Call.fail [arg cb 0]]) := by
  have hauth : self.authenticate req = self._loadUserProfile accessToken
      (self.authenticateLoaded req accessToken refreshToken) := by
    rw [authenticate_of_no_query_error self req herr hq hh, ← haccess, ← hrefresh, htoken]
    simp
  refine ⟨?_, ?_, ?_, ?_⟩
  · intro loaded h
    have key := authenticateLoaded_of_error self req accessToken refreshToken loaded h
    exact ⟨key, by rw [key, callFail_trace]⟩
  · intro v cb outcome hskip hv hget hcb
    rw [hauth, loadUserProfile_of_falsy_value self _ _ v hskip hv,
      userProfile_of_single self _ _ cb outcome hget]
    unfold userProfileFetched
    simp only [hcb, if_true]
    rw [authenticateLoaded_of_error self req _ _ _ (by simp [arg, InternalOAuthError, JSVal.truthy]),
      callFail_trace]
    rfl
  · intro v cb outcome message hskip hv hget hcb hparse
    rw [hauth, loadUserProfile_of_falsy_value self _ _ v hskip hv,
      userProfile_of_single self _ _ cb outcome hget]
    unfold userProfileFetched
    simp only [hcb, Bool.false_eq_true, if_false]
    rw [userProfileTry_of_malformed self _ message _ hparse]
    simp only [Eff.tryCatch, List.nil_append]
    rw [authenticateLoaded_of_error self req _ _ _ (by simp [arg, syntaxError, JSVal.truthy]),
      callFail_trace]
    rfl
  · intro length run cb outcome hskip hlength hrun hcb
    rw [hauth, loadUserProfile_of_async_single self _ _ length run cb outcome hskip hlength
      hrun hcb]
    rw [authenticateLoaded_of_error self req _ _ _ (by simpa [arg] using hcb), callFail_trace]
    rfl

/-- C7, witness: an asynchronous skip predicate that signals an error. -/
theorem authenticate_load_error_fails_witness :
    (skipErrorStrategy.authenticate bodyRequest).trace
      = [Call.skipUserProfile [JSVal.str "token"], Call.fail [JSVal.str "lookup failed"]] :=
  (authenticate_load_error_fails skipErrorStrategy bodyRequest (JSVal.str "token")
    JSVal.undefined rfl rfl rfl rfl rfl rfl).2.2.2 2
      (fun _ => ⟨[[JSVal.str "lookup failed"]], Except.ok JSVal.undefined⟩)
      [JSVal.str "lookup failed"] (Except.ok JSVal.undefined) rfl (by decide) rfl rfl

/-- C9 as stated fails: with a synchronous zero-argument skip predicate that
returns `true`, `_loadUserProfile` calls `done(null)` with one argument, not
`done(null, null)`: the profile the verify callback receives is `undefined`. -/
theorem loadUserProfile_skip_passes_no_profile :
    (skipAlwaysStrategy._loadUserProfile (JSVal.str "token") record).trace
        = [Call.skipUserProfile [], Call.done [JSVal.null]]
      ∧ Call.done [JSVal.null, JSVal.null] ∉
          (skipAlwaysStrategy._loadUserProfile (JSVal.str "token") record).trace
      ∧ (skipAlwaysStrategy.authenticate bodyRequest).trace
        = [Call.skipUserProfile [],
           Call.verify [JSVal.str "token", JSVal.undefined, JSVal.undefined],
           Call.success [JSVal.str "ada", JSVal.undefined]] := by
  have h : (skipAlwaysStrategy._loadUserProfile (JSVal.str "token") record).trace
      = [Call.skipUserProfile [], Call.done [JSVal.null]] := rfl
  refine ⟨h, ?_, rfl⟩
  rw [h]
  simp

/-- C9, amended: given a skip predicate configured as the value `true` (any truthy
value that is not a function) or as a synchronous function of at most one
declared parameter that returns `true` (any truthy value), for every access token
`_loadUserProfile` invokes `done(null)` exactly once, with `null` as error and no
profile argument, so that the profile reads `undefined`, and calls neither
`userProfile` nor the OAuth2 client; the function is called with no argument.
When no skip predicate is configured (the option is `undefined` or `false`),
`_loadUserProfile` is the call of `userProfile` with the same arguments. -/
theorem loadUserProfile_skip (self : LinkedinTokenStrategy) (accessToken : JSVal)
    (done : List JSVal → Eff Unit) :
    (∀ v, self._skipUserProfile = SkipUserProfile.value v → v.truthy = true →
        self._loadUserProfile accessToken done = done [JSVal.null]
          ∧ (self._loadUserProfile accessToken record).trace = [Call.done [JSVal.null]])
      ∧ (∀ length run v, self._skipUserProfile = SkipUserProfile.fn length run →
          length ≤ 1 → (run []).outcome = Except.ok v → v.truthy = true →
          self._loadUserProfile accessToken done
              = ⟨Call.skipUserProfile [] :: (done [JSVal.null]).trace,
                  (done [JSVal.null]).result⟩
            ∧ (self._loadUserProfile accessToken record).trace
              = [Call.skipUserProfile [], Call.done [JSVal.null]])
      ∧ arg [JSVal.null] 1 = JSVal.undefined
      ∧ (∀ v, self._skipUserProfile = SkipUserProfile.value v → v.truthy = false →
          self._loadUserProfile accessToken done = self.userProfile accessToken done) := by
  refine ⟨?_, ?_, rfl, ?_⟩
  · intro v hskip hv
    refine ⟨loadUserProfile_of_truthy_value self _ _ v hskip hv, ?_⟩
    rw [loadUserProfile_of_truthy_value self _ _ v hskip hv]
    rfl
  · intro length run v hskip hlength hrun hv
    refine ⟨loadUserProfile_of_sync_true self _ _ length run v hskip hlength hrun hv, ?_⟩
    rw [loadUserProfile_of_sync_true self _ _ length run v hskip hlength hrun hv]
    rfl
  · intro v hskip hv
    exact loadUserProfile_of_falsy_value self _ _ v hskip hv

/-- C9, witness: the skip option set to the value `true`. -/
theorem loadUserProfile_skip_witness :
    (skipTrueStrategy._loadUserProfile (JSVal.str "token") record).trace
      = [Call.done [JSVal.null]] :=
  ((loadUserProfile_skip skipTrueStrategy (JSVal.str "token") record).1
    (JSVal.bool true) rfl rfl).2

/-! ## C8: one outcome per authentication -/

/-- C8, the code at the failing input: the OAuth2 client and the verify callback
each invoke their continuation exactly once, the verify callback raises after its
report (or the framework's `success` raises), and `authenticate` makes two
terminal calls, `success(user, info)` followed by `fail(e)` with the raised
exception: the `catch` of `userProfile` encloses the call of `done` and answers
an exception from it by calling `done` a second time. -/
theorem authenticate_two_outcomes :
    (∀ args, (raisingVerifyStrategy._verify args).calls.length = 1
        ∧ (raisingVerifyStrategy.oauth2Get args).calls.length = 1)
      ∧ (raisingVerifyStrategy.authenticate bodyRequest).trace.filter Call.isTerminal
        = [Call.success [JSVal.str "ada", JSVal.undefined], Call.fail [boom]]
      ∧ (∀ args, (raisingSuccessStrategy._verify args).calls.length = 1
        ∧ (raisingSuccessStrategy.oauth2Get args).calls.length = 1)
      ∧ (raisingSuccessStrategy.authenticate bodyRequest).trace.filter Call.isTerminal
        = [Call.success [JSVal.str "ada", JSVal.undefined], Call.fail [boom]] :=
  ⟨fun _ => ⟨rfl, rfl⟩, rfl, fun _ => ⟨rfl, rfl⟩, rfl⟩

/-! ## C10: the field list derived from the scope -/

theorem foldl_pushScopeFields (protoMember : String → Option String) (scope : List String)
    (h : ∀ f, f ∈ scope → protoMember f = none) (acc : List String) :
    scope.foldl (pushScopeFields protoMember) acc
      = acc ++ (scope.map (fun f => (scopeMap.lookup f).getD [])).flatten := by
  induction scope generalizing acc with
  | nil => simp
  | cons f rest ih =>
    have hrest : ∀ g, g ∈ rest → protoMember g = none :=
      fun g hg => h g (List.mem_cons_of_mem _ hg)
    rw [List.foldl_cons, ih hrest]
    unfold pushScopeFields
    cases hf : scopeMap.lookup f with
    | some own => simp [hf]
    | none => simp [hf, h f (List.mem_cons_self _ _)]

/-- With `profileFields` passed as `null`, the field list is the comma-joined
concatenation, in scope order, of the table entries of the recognised scope
names, with `r_basicprofile` put in front when the scope lacks it; names that are
neither in the table nor members of `Object.prototype` contribute nothing. -/
theorem convertScope_of_null (protoMember : String → Option String) (scope : List String)
    (h : ∀ f, f ∈ scope → protoMember f = none) (hbase : protoMember "r_basicprofile" = none) :
    _convertScopeToUserProfileFields protoMember (ArrayArg.array scope) ArrayArg.null
      = ",".intercalate
          (((if "r_basicprofile" ∈ scope then scope else "r_basicprofile" :: scope).map
            (fun f => (scopeMap.lookup f).getD [])).flatten) := by
  unfold _convertScopeToUserProfileFields
  simp only
  rw [foldl_pushScopeFields]
  · simp
  · intro f hf
    split_ifs at hf with hmem
    · exact h f hf
    · rcases List.mem_cons.mp hf with hf | hf
      · rw [hf]
        exact hbase
      · exact h f hf

set_option maxRecDepth 100000

/-- C10, the code at the failing input: with `scope = ['r_emailaddress']` and
`profileFields` omitted, the argument is `undefined`, the test
`profileFields === null` fails, no table entry is collected, and both the field
list and the parenthesis of `profileUrl` are empty.  Only an explicit `null`
yields the fields of `r_basicprofile` followed by `email-address`. -/
theorem convertScope_omitted_profileFields (protoMember : String → Option String) :
    _convertScopeToUserProfileFields protoMember (ArrayArg.array ["r_emailaddress"])
        ArrayArg.undefined = ""
      ∧ constructProfileUrl protoMember
          ⟨none, ArrayArg.array ["r_emailaddress"], ArrayArg.undefined⟩
        = "https://api.linkedin.com/v1/people/~:()"
      ∧ _convertScopeToUserProfileFields (fun _ => none) (ArrayArg.array ["r_emailaddress"])
          ArrayArg.null
        = "id,first-name,last-name,picture-url,formatted-name,maiden-name,phonetic-first-name,phonetic-last-name,formatted-phonetic-name,headline,location:(name,country:(code)),industry,distance,relation-to-viewer:(distance,connections),current-share,num-connections,num-connections-capped,summary,specialties,positions,site-standard-profile-request,api-standard-profile-request:(headers,url),public-profile-url,email-address" := by
  exact ⟨rfl, rfl, rfl⟩

end LinkedinToken
